import Mathlib

/-!
# Verification of the unique-code-service idempotent ledger engine

A shallow embedding of `unique_code_service/models.py` (class `UniqueCodePool`)
and the parts of `unique_code_service/api.py` the claims refer to.

Modelling conventions:
* A pool's tables are a `PoolState` record: the three tables are Lean lists in
  insertion order (SQL `select ... limit 1` without `order by` is modelled as
  first match in insertion order, as the spec itself assumes: "lookups return
  the first match").
* `datetime.utcnow()` is an external read; each operation takes the current
  clock value as an explicit `now : Nat` argument.
* JSON round-trips through `json.dumps`/`json.loads` are the identity on the
  payloads this service stores, so the `request_data`/`response_data` columns
  hold the structured values directly.  The only payload shapes this service
  ever writes are `{"candidate_code": raw}` (`ReqData`) and, for responses,
  either the failure dict `{"reason": r, "unique_code": c}` or the formatted
  unique-code dict (`RespData`).
* Stateful operations return `Except UCError α × PoolState`: the result (or
  the exception that propagates to the caller) together with the table state
  after the operation.  `redeem_unique_code` commits its transaction in a
  `finally:` block, so in the source the audit write on the failure path
  persists even though an exception is raised; the pair captures exactly that.
* The surrogate `id` primary keys of the `audit` and `import_audit` tables are
  never read by the code and are not modelled; `unique_codes.id` is read (the
  `update ... where id = ...`) and is modelled, assigned from a `next_id`
  counter on insert.
-/

namespace UniqueCodeService

/-- The audit-identity triple `{request_id, transaction_id, user_id}` that
`api.redeem_unique_code` builds and `models` threads through as
`audit_params`. -/
structure AuditParams where
  request_id : String
  transaction_id : String
  user_id : String
deriving DecidableEq, Repr

/-- The JSON object `{"candidate_code": candidate_code}` stored in the
`request_data` column (the raw, pre-canonicalisation code). -/
structure ReqData where
  candidate_code : String
deriving DecidableEq, Repr

/-- The result of `_format_unique_code` with the default field set: every
column of a `unique_codes` row except `created_at` and `modified_at`. -/
structure FormattedCode where
  id : Nat
  unique_code : String
  flavour : String
  used : Bool
  reason : Option String
deriving DecidableEq, Repr

/-- The JSON object stored in the `response_data` column: either the failure
payload `{"reason": .., "unique_code": ..}` written on a `CannotRedeem` error,
or the formatted unique-code dict written on success.  These are the only two
shapes this service writes. -/
inductive RespData where
  | err (reason : String) (unique_code : String)
  | ok (code : FormattedCode)
deriving DecidableEq, Repr

/-- The value at the JSON key named reason of a stored response payload.  Both
payload shapes carry that key; in the formatted-code shape it is nullable, and
the source would pass the null through (we collapse it to `""`; the service
never writes an `error=true` row with that shape, so the case is unreachable
in reachable states). -/
def RespData.reasonField : RespData → String
  | .err reason _ => reason
  | .ok fc => fc.reason.getD ""

/-- The value at the JSON key `"unique_code"` of a stored response payload. -/
def RespData.codeField : RespData → String
  | .err _ unique_code => unique_code
  | .ok fc => fc.unique_code

/-- A row of the `unique_codes` table. -/
structure UniqueCodeRow where
  id : Nat
  unique_code : String
  flavour : String
  used : Bool
  created_at : Nat
  modified_at : Nat
  reason : Option String
deriving DecidableEq, Repr

/-- A row of the `audit` table. -/
structure AuditRow where
  request_id : String
  transaction_id : String
  user_id : String
  request_data : ReqData
  response_data : RespData
  error : Bool
  created_at : Nat
  unique_code : String
deriving DecidableEq, Repr

/-- A row of the `import_audit` table. -/
structure ImportAuditRow where
  request_id : String
  content_md5 : String
  created_at : Nat
deriving DecidableEq, Repr

/-- One decoded CSV row handed to the import operation: the
`{flavour, unique_code}` dicts of `import_unique_codes`. -/
structure ImportDict where
  flavour : String
  unique_code : String
deriving DecidableEq, Repr

/-- The three tables of one `UniqueCodePool`, plus the id counter the store
uses for `unique_codes.id`. -/
structure PoolState where
  unique_codes : List UniqueCodeRow
  audit : List AuditRow
  import_audit : List ImportAuditRow
  next_id : Nat
deriving DecidableEq, Repr

/-- The domain exceptions of `models.py`.  `noPool` is `NoUniqueCodePool`
(raised by `execute_query` when the pool's tables are absent),
`auditMismatch` is `AuditMismatch`, and `cannotRedeem` is
`CannotRedeemUniqueCode` with its `reason` and `unique_code` fields. -/
inductive UCError where
  | noPool
  | auditMismatch
  | cannotRedeem (reason : String) (unique_code : String)
deriving DecidableEq, Repr

/-- `UNIQUE_CODE_ALLOWED_CHARS = string.lowercase + string.digits`. -/
def UNIQUE_CODE_ALLOWED_CHARS : List Char :=
  "abcdefghijklmnopqrstuvwxyz0123456789".data

/-- `UniqueCodePool.canonicalise_unique_code`: lowercase the string and keep
only the characters in `UNIQUE_CODE_ALLOWED_CHARS`. -/
def canonicalise_unique_code (unique_code : String) : String :=
  ⟨(unique_code.data.map Char.toLower).filter
      (fun c => UNIQUE_CODE_ALLOWED_CHARS.contains c)⟩

/-- `UniqueCodePool._format_unique_code` with the default `fields` argument:
every column except `created_at` and `modified_at`. -/
def _format_unique_code (row : UniqueCodeRow) : FormattedCode :=
  { id := row.id
    unique_code := row.unique_code
    flavour := row.flavour
    used := row.used
    reason := row.reason }

/-- `UniqueCodePool._get_unique_code`: first `unique_codes` row whose
`unique_code` column equals the canonical code (`select ... limit 1`),
formatted. -/
def _get_unique_code (st : PoolState) (canonical_code : String) :
    Option FormattedCode :=
  (st.unique_codes.find? (fun row => row.unique_code == canonical_code)).map
    _format_unique_code

/-- `UniqueCodePool._update_unique_code`: `update unique_codes set used=..,
reason=.., modified_at=now where id = unique_code_id`.  Note the condition is
on `id` only; it does not test the `used` column. -/
def _update_unique_code (st : PoolState) (unique_code_id : Nat) (used : Bool)
    (reason : String) (now : Nat) : PoolState :=
  { st with
    unique_codes := st.unique_codes.map (fun row =>
      if row.id == unique_code_id then
        { row with used := used, reason := some reason, modified_at := now }
      else row) }

/-- `UniqueCodePool._redeem_unique_code`: read the row for the canonical code,
fail `invalid` if absent, fail `used` if its `used` flag is set, otherwise
write `used=True, reason=reason` (by id) and return the snapshot read before
the write. -/
def _redeem_unique_code (st : PoolState) (canonical_code : String)
    (reason : String) (now : Nat) :
    Except UCError (FormattedCode × PoolState) :=
  match _get_unique_code st canonical_code with
  | none => .error (.cannotRedeem "invalid" canonical_code)
  | some unique_code =>
    if unique_code.used then .error (.cannotRedeem "used" canonical_code)
    else .ok (unique_code,
      _update_unique_code st unique_code.id true reason now)

/-- `UniqueCodePool._audit_request`: append one `audit` row. -/
def _audit_request (st : PoolState) (audit_params : AuditParams)
    (req_data : ReqData) (resp_data : RespData) (unique_code : String)
    (error : Bool) (now : Nat) : PoolState :=
  { st with
    audit := st.audit ++ [{
      request_id := audit_params.request_id
      transaction_id := audit_params.transaction_id
      user_id := audit_params.user_id
      request_data := req_data
      response_data := resp_data
      error := error
      created_at := now
      unique_code := unique_code }] }

/-- `UniqueCodePool._get_previous_request`: look up the audit row for this
`request_id`; if none, return `none` (first-time request).  Otherwise compare
the identity triple and the request payload against the stored values: any
difference raises `AuditMismatch`; an exact match re-raises the recorded
failure (`error=true`) or returns the recorded `response_data` verbatim.
(The source destructures `[row] = rows`; the unique index on `request_id`
guarantees at most one row, so this is the first filtered row.) -/
def _get_previous_request (st : PoolState) (audit_params : AuditParams)
    (req_data : ReqData) : Except UCError (Option RespData) :=
  match st.audit.filter (fun row => row.request_id == audit_params.request_id) with
  | [] => .ok none
  | row :: _ =>
    if audit_params ≠ (⟨row.request_id, row.transaction_id, row.user_id⟩ : AuditParams)
        ∨ req_data ≠ row.request_data then
      .error .auditMismatch
    else if row.error then
      .error (.cannotRedeem row.response_data.reasonField row.response_data.codeField)
    else
      .ok (some row.response_data)

/-- `UniqueCodePool.redeem_unique_code`: build the raw request payload, run
the idempotency check (`_get_previous_request`, which may replay a stored
response, re-raise a stored failure, or raise `AuditMismatch`), and only then
canonicalise the code and attempt `_redeem_unique_code` inside a transaction.
A `CannotRedeemUniqueCode` failure is audited with `error=true` before being
re-raised; success is audited with `error=false`; the `finally: trx.commit()`
makes the audit write persist on both paths. -/
def redeem_unique_code (st : PoolState) (candidate_code : String)
    (audit_params : AuditParams) (now : Nat) :
    Except UCError RespData × PoolState :=
  let audit_req_data : ReqData := ⟨candidate_code⟩
  match _get_previous_request st audit_params audit_req_data with
  | .error e => (.error e, st)
  | .ok (some previous_data) => (.ok previous_data, st)
  | .ok none =>
    -- canonicalisation happens after the audit check, per the source comment
    -- so the replay-match conditions are not loosened.
    let canonical := canonicalise_unique_code candidate_code
    match _redeem_unique_code st canonical "redeemed" now with
    | .error (.cannotRedeem reason code) =>
      (.error (.cannotRedeem reason code),
       _audit_request st audit_params audit_req_data (.err reason code)
         canonical true now)
    | .error e => (.error e, st)
    | .ok (unique_code, st1) =>
      (.ok (.ok unique_code),
       _audit_request st1 audit_params audit_req_data (.ok unique_code)
         canonical false now)

/-- The `unique_codes` rows built by the import loop: each `{flavour,
unique_code}` dict becomes a row with the shared batch timestamp, the `used`
and `reason` columns left to their declared defaults (`False` and `NULL`),
and ids assigned by the store. -/
def importRows (first_id : Nat) (unique_code_dicts : List ImportDict)
    (now : Nat) : List UniqueCodeRow :=
  unique_code_dicts.enum.map (fun p =>
    { id := first_id + p.1
      unique_code := p.2.unique_code
      flavour := p.2.flavour
      used := false
      created_at := now
      modified_at := now
      reason := none })

/-- `UniqueCodePool.import_unique_codes` (the whole body runs between
`trx.begin()` and `trx.commit()`/`trx.rollback()`, so it is one atomic state
change): an existing `import_audit` row for this `request_id` makes the call a
no-op when `content_md5` matches and an `AuditMismatch` failure otherwise, in
both cases after a rollback that leaves the state unchanged; a fresh
`request_id` records the import-audit row first and then bulk-inserts all the
code rows. -/
def importUniqueCodes (st : PoolState) (request_id : String)
    (content_md5 : String) (unique_code_dicts : List ImportDict) (now : Nat) :
    Except UCError Unit × PoolState :=
  match st.import_audit.filter (fun row => row.request_id == request_id) with
  | row :: _ =>
    if row.content_md5 == content_md5 then (.ok (), st)
    else (.error .auditMismatch, st)
  | [] =>
    (.ok (),
     { st with
       import_audit := st.import_audit ++ [{
         request_id := request_id
         content_md5 := content_md5
         created_at := now }]
       unique_codes := st.unique_codes ++ importRows st.next_id unique_code_dicts now
       next_id := st.next_id + unique_code_dicts.length })

/-- `UniqueCodePool.count_unique_codes`: the `(flavour, used)` groups with
their row counts (`group by` order is unspecified; we list groups in first-
occurrence order). -/
def count_unique_codes (st : PoolState) : List (String × Bool × Nat) :=
  ((st.unique_codes.map (fun row => (row.flavour, row.used))).dedup).map
    (fun key => (key.1, key.2,
      (st.unique_codes.filter (fun row =>
        row.flavour == key.1 && row.used == key.2)).length))

/-- The dict `_query_audit` builds for each audit row (all columns except the
denormalised `unique_code` and the surrogate id). -/
structure AuditView where
  request_id : String
  transaction_id : String
  user_id : String
  request_data : ReqData
  response_data : RespData
  error : Bool
  created_at : Nat
deriving DecidableEq, Repr

/-- Insert into a list sorted by `created_at` (ascending). -/
def insertByCreated (a : AuditView) : List AuditView → List AuditView
  | [] => [a]
  | b :: bs =>
    if b.created_at ≤ a.created_at then b :: insertByCreated a bs
    else a :: b :: bs

/-- `order_by(created_at)` as an insertion sort. -/
def sortByCreated (rows : List AuditView) : List AuditView :=
  rows.foldr insertByCreated []

/-- `UniqueCodePool._query_audit`: the audit rows matching the filter, ordered
ascending by `created_at`, projected to `AuditView`. -/
def _query_audit (st : PoolState) (p : AuditRow → Bool) : List AuditView :=
  sortByCreated ((st.audit.filter p).map (fun row =>
    { request_id := row.request_id
      transaction_id := row.transaction_id
      user_id := row.user_id
      request_data := row.request_data
      response_data := row.response_data
      error := row.error
      created_at := row.created_at }))

/-- `UniqueCodePool.query_by_request_id`. -/
def query_by_request_id (st : PoolState) (request_id : String) : List AuditView :=
  _query_audit st (fun row => row.request_id == request_id)

/-- `UniqueCodePool.query_by_transaction_id`. -/
def query_by_transaction_id (st : PoolState) (transaction_id : String) : List AuditView :=
  _query_audit st (fun row => row.transaction_id == transaction_id)

/-- `UniqueCodePool.query_by_user_id`. -/
def query_by_user_id (st : PoolState) (user_id : String) : List AuditView :=
  _query_audit st (fun row => row.user_id == user_id)

/-- `UniqueCodePool.query_by_unique_code`. -/
def query_by_unique_code (st : PoolState) (unique_code : String) : List AuditView :=
  _query_audit st (fun row => row.unique_code == unique_code)

/-! ## The exposed pool-scoped operations

`Op` enumerates the pool-scoped operations the HTTP layer exposes (redeem and
import, the four audit queries, counts).  `applyOp` runs one against a pool's
tables; `applyStoreOp` runs one against a possibly-missing pool.  In the
source every one of these operations reaches the store only through
`UniqueCodePool.execute_query` (directly or via `execute_fetchall`, which
delegates to it), whose override turns the storage layer's
`CollectionMissingError` — raised exactly when the pool's tables are absent —
into `NoUniqueCodePool` before any state is touched.  `applyStoreOp` models
the missing-table namespace as `none`. -/

/-- One exposed pool-scoped operation with its inputs. -/
inductive Op where
  | redeemOp (candidate_code : String) (audit_params : AuditParams) (now : Nat)
  | importOp (request_id : String) (content_md5 : String)
      (unique_code_dicts : List ImportDict) (now : Nat)
  | countsOp
  | queryRequestIdOp (value : String)
  | queryTransactionIdOp (value : String)
  | queryUserIdOp (value : String)
  | queryUniqueCodeOp (value : String)

/-- The typed result of an exposed operation. -/
inductive OpResult where
  | redeemed (resp : RespData)
  | imported
  | counts (rows : List (String × Bool × Nat))
  | audits (rows : List AuditView)
deriving DecidableEq, Repr

/-- Run one exposed operation against an existing pool's tables. -/
def applyOp (op : Op) (st : PoolState) : Except UCError OpResult × PoolState :=
  match op with
  | .redeemOp candidate_code audit_params now =>
    let (r, st') := redeem_unique_code st candidate_code audit_params now
    (r.map .redeemed, st')
  | .importOp request_id content_md5 unique_code_dicts now =>
    let (r, st') := importUniqueCodes st request_id content_md5 unique_code_dicts now
    (r.map (fun _ => .imported), st')
  | .countsOp => (.ok (.counts (count_unique_codes st)), st)
  | .queryRequestIdOp v => (.ok (.audits (query_by_request_id st v)), st)
  | .queryTransactionIdOp v => (.ok (.audits (query_by_transaction_id st v)), st)
  | .queryUserIdOp v => (.ok (.audits (query_by_user_id st v)), st)
  | .queryUniqueCodeOp v => (.ok (.audits (query_by_unique_code st v)), st)

/-- Run one exposed operation against a pool namespace that may be absent
(`none`): the first store access of every operation raises
`CollectionMissingError`, which `execute_query` translates to
`NoUniqueCodePool`, before any state change. -/
def applyStoreOp (op : Op) (pool : Option PoolState) :
    Except UCError OpResult × Option PoolState :=
  match pool with
  | none => (.error .noPool, none)
  | some st =>
    let (r, st') := applyOp op st
    (r, some st')

/-! ## Interleaved execution of `_redeem_unique_code`

`_redeem_unique_code` performs its read (`_get_unique_code`, with the
`used`-flag check on the result) and its write (`_update_unique_code`, whose
`where` clause tests only `id`) as two separate store accesses — each a
`yield`ed deferred on its own database round-trip — so two callers on
separate connections may interleave between them.  `RedeemStep` is the
control state of one in-flight `_redeem_unique_code` call at those yield
points, `stepRedeem` runs one store access, and `runRace` drives two calls
under an explicit schedule (`true` steps the first caller, `false` the
second). -/

deriving instance DecidableEq for Except

/-- Control state of one in-flight `_redeem_unique_code` call. -/
inductive RedeemStep where
  | start (canonical_code : String)
  | preWrite (canonical_code : String) (unique_code : FormattedCode)
  | done (result : Except UCError FormattedCode)
deriving DecidableEq, Repr

/-- One store access of `_redeem_unique_code`: from `start`, the read and the
`used` check; from `preWrite`, the id-conditioned update and the return of
the pre-read snapshot. -/
def stepRedeem (st : PoolState) (p : RedeemStep) (now : Nat) :
    PoolState × RedeemStep :=
  match p with
  | .start canonical_code =>
    match _get_unique_code st canonical_code with
    | none => (st, .done (.error (.cannotRedeem "invalid" canonical_code)))
    | some unique_code =>
      if unique_code.used then
        (st, .done (.error (.cannotRedeem "used" canonical_code)))
      else (st, .preWrite canonical_code unique_code)
  | .preWrite _ unique_code =>
    (_update_unique_code st unique_code.id true "redeemed" now,
     .done (.ok unique_code))
  | .done r => (st, .done r)

/-- Run two in-flight `_redeem_unique_code` calls under a schedule: `true`
steps the first caller, `false` the second. -/
def runRace (st : PoolState) (p q : RedeemStep) (sched : List Bool)
    (now : Nat) : PoolState × RedeemStep × RedeemStep :=
  match sched with
  | [] => (st, p, q)
  | b :: rest =>
    if b then
      let (st', p') := stepRedeem st p now
      runRace st' p' q rest now
    else
      let (st', q') := stepRedeem st q now
      runRace st' p q' rest now

/-! ## Theorems -/

/-- Every character of the allowed alphabet is already lowercase. -/
theorem allowed_toLower_fixed : ∀ c ∈ UNIQUE_CODE_ALLOWED_CHARS, Char.toLower c = c := by
  decide

/-- A list of characters that `Char.toLower` fixes is fixed by the
lowercasing pass. -/
theorem map_toLower_fixed {l : List Char} (h : ∀ c ∈ l, Char.toLower c = c) :
    l.map Char.toLower = l := by
  induction l with
  | nil => rfl
  | cons a t ih =>
    simp only [List.map_cons, h a (List.mem_cons_self a t),
      ih (fun c hc => h c (List.mem_cons_of_mem _ hc))]

/-- Characters surviving the canonicalisation filter are in the allowed
alphabet. -/
theorem mem_of_canonical_mem {s : String} {c : Char}
    (h : c ∈ (canonicalise_unique_code s).data) :
    c ∈ UNIQUE_CODE_ALLOWED_CHARS := by
  have h2 := (List.mem_filter.mp h).2
  simpa [List.contains, List.elem_iff] using h2

/-- C9: `canonicalise_unique_code` is a pure total function whose output uses
only the lowercase-letters-plus-digits alphabet; it is idempotent, and on the
concrete examples `"VaNiLla0"` and `"vanilla0"` it yields `"vanilla0"`. -/
theorem C9_canonicalise_idempotent :
    (∀ s : String, canonicalise_unique_code (canonicalise_unique_code s) =
      canonicalise_unique_code s) ∧
    (∀ (s : String) (c : Char), c ∈ (canonicalise_unique_code s).data →
      c ∈ UNIQUE_CODE_ALLOWED_CHARS) ∧
    canonicalise_unique_code "VaNiLla0" = "vanilla0" ∧
    canonicalise_unique_code "vanilla0" = "vanilla0" := by
  refine ⟨fun s => ?_, fun s c h => mem_of_canonical_mem h, by decide, by decide⟩
  have hall : ∀ c ∈ (canonicalise_unique_code s).data,
      UNIQUE_CODE_ALLOWED_CHARS.contains c = true := by
    intro c hc
    exact (List.mem_filter.mp hc).2
  have hfix : ∀ c ∈ (canonicalise_unique_code s).data, Char.toLower c = c := by
    intro c hc
    exact allowed_toLower_fixed c (mem_of_canonical_mem hc)
  show String.mk (((canonicalise_unique_code s).data.map Char.toLower).filter _) = _
  rw [map_toLower_fixed hfix, List.filter_eq_self.mpr hall]

/-- Witness for C9: the bounded-alphabet conjunct applied at the concrete
input `"VaNiLla0"` and the character `v`. -/
theorem C9_canonicalise_idempotent_witness :
    'v' ∈ UNIQUE_CODE_ALLOWED_CHARS :=
  C9_canonicalise_idempotent.2.1 "VaNiLla0" 'v' (by decide)

/-- `find?` commutes with mapping a function that preserves the predicate. -/
theorem find?_map_of_pred {α : Type} (l : List α) (f : α → α) (p : α → Bool)
    (hf : ∀ a, p (f a) = p a) :
    (l.map f).find? p = (l.find? p).map f := by
  induction l with
  | nil => rfl
  | cons a t ih =>
    simp only [List.map_cons, List.find?_cons, hf a]
    cases h : p a
    · simpa [h] using ih
    · simp [h]

/-- After `_update_unique_code` on the id of the row `_get_unique_code`
returned, the lookup sees the updated `used`/`reason` values (the update does
not change the `unique_code` column, so the same row is still the first
match). -/
theorem get_after_update (st : PoolState) (c : String) (fc : FormattedCode)
    (used : Bool) (reason : String) (now : Nat)
    (hget : _get_unique_code st c = some fc) :
    _get_unique_code (_update_unique_code st fc.id used reason now) c =
      some { fc with used := used, reason := some reason } := by
  unfold _get_unique_code at hget ⊢
  unfold _update_unique_code
  rw [find?_map_of_pred _ _ _ (by intro r; by_cases h : r.id == fc.id <;> simp [h])]
  obtain ⟨r0, hr0, hfmt⟩ : ∃ r0,
      st.unique_codes.find? (fun row => row.unique_code == c) = some r0 ∧
      _format_unique_code r0 = fc := by
    cases h : st.unique_codes.find? (fun row => row.unique_code == c) with
    | none => rw [h] at hget; cases hget
    | some r0 => rw [h] at hget; exact ⟨r0, rfl, by simpa using hget⟩
  rw [hr0]
  have hid : (r0.id == fc.id) = true := by
    rw [← hfmt]; simp [_format_unique_code]
  simp only [Option.map_some, Option.map]
  rw [hid]
  simp only [if_pos rfl]
  rw [← hfmt]
  simp [_format_unique_code]

/-- A one-row pool whose single code `"vanilla0"` is still available. -/
def raceRow : UniqueCodeRow :=
  { id := 1
    unique_code := "vanilla0"
    flavour := "vanilla"
    used := false
    created_at := 0
    modified_at := 0
    reason := none }

/-- The pool state holding exactly `raceRow`. -/
def raceState : PoolState :=
  { unique_codes := [raceRow], audit := [], import_audit := [], next_id := 2 }

/-- C1 (counterexample): the redeem-state transition is NOT an atomic
conditional update.  On a pool with one row for `"vanilla0"` (`used=false`),
scheduling two concurrent first-time `_redeem_unique_code` calls so that both
reads run before either write makes both calls succeed: neither caller
receives `CannotRedeem(reason="used")`, contradicting the claimed
one-winner/one-loser outcome. -/
theorem C1_counterexample :
    (runRace raceState (.start "vanilla0") (.start "vanilla0")
        [true, false, true, false] 7).2 =
      (.done (.ok (_format_unique_code raceRow)),
       .done (.ok (_format_unique_code raceRow))) ∧
    ¬ ((runRace raceState (.start "vanilla0") (.start "vanilla0")
        [true, false, true, false] 7).2.1 =
          .done (.error (.cannotRedeem "used" "vanilla0")) ∨
       (runRace raceState (.start "vanilla0") (.start "vanilla0")
        [true, false, true, false] 7).2.2 =
          .done (.error (.cannotRedeem "used" "vanilla0"))) := by
  decide

/-- C1 (amended): `_redeem_unique_code` performs a separate read of the
`used` flag (`_get_unique_code` plus the in-process check) followed by a
write conditioned only on the row id (`_update_unique_code`), not an atomic
conditional update.  Consequently, for any pool state whose first row for
code `c` is unused: under the interleaving that runs both reads before
either write, two concurrent first-time redemptions of `c` BOTH succeed;
only when the two calls run without interleaving (sequentially) does the
pair yield one success and one `CannotRedeem(reason="used")`. -/
theorem C1_amended (st : PoolState) (c : String) (fc : FormattedCode)
    (now : Nat) (hget : _get_unique_code st c = some fc)
    (hused : fc.used = false) :
    (runRace st (.start c) (.start c) [true, false, true, false] now).2 =
      (.done (.ok fc), .done (.ok fc)) ∧
    (runRace st (.start c) (.start c) [true, true, false, false] now).2 =
      (.done (.ok fc), .done (.error (.cannotRedeem "used" c))) := by
  constructor
  · simp [runRace, stepRedeem, hget, hused]
  · have h2 := get_after_update st c fc true "redeemed" now hget
    simp [runRace, stepRedeem, hget, hused, h2]

/-- Witness for C1 (amended): the amended theorem applied to the concrete
one-row pool `raceState` and the code `"vanilla0"`. -/
theorem C1_amended_witness :
    (runRace raceState (.start "vanilla0") (.start "vanilla0")
        [true, false, true, false] 7).2 =
      (.done (.ok (_format_unique_code raceRow)),
       .done (.ok (_format_unique_code raceRow))) ∧
    (runRace raceState (.start "vanilla0") (.start "vanilla0")
        [true, true, false, false] 7).2 =
      (.done (.ok (_format_unique_code raceRow)),
       .done (.error (.cannotRedeem "used" "vanilla0"))) :=
  C1_amended raceState "vanilla0" (_format_unique_code raceRow) 7
    (by decide) (by decide)

/-- A row returned by the `request_id` filter carries that `request_id`. -/
theorem filter_request_id {st : PoolState} {ap : AuditParams} {row : AuditRow}
    (hrow : st.audit.filter (fun r => r.request_id == ap.request_id) = [row]) :
    row.request_id = ap.request_id := by
  have hmem : row ∈ st.audit.filter (fun r => r.request_id == ap.request_id) := by
    rw [hrow]; exact List.mem_cons_self _ _
  simpa using (List.mem_filter.mp hmem).2

/-- Replay helper: an exact-match audit row makes the call replay the stored
outcome with the state unchanged. -/
theorem redeem_replay (st : PoolState) (ap : AuditParams)
    (candidate_code : String) (now : Nat) (row : AuditRow)
    (hrow : st.audit.filter (fun r => r.request_id == ap.request_id) = [row])
    (htx : row.transaction_id = ap.transaction_id)
    (hus : row.user_id = ap.user_id)
    (hreq : row.request_data = ⟨candidate_code⟩) :
    (row.error = false →
      redeem_unique_code st candidate_code ap now = (.ok row.response_data, st)) ∧
    (∀ reason code, row.error = true → row.response_data = .err reason code →
      redeem_unique_code st candidate_code ap now =
        (.error (.cannotRedeem reason code), st)) := by
  have hap : (⟨row.request_id, row.transaction_id, row.user_id⟩ : AuditParams) = ap := by
    cases ap
    simp_all [filter_request_id hrow]
  refine ⟨fun herr => ?_, fun reason code herr hresp => ?_⟩
  · simp [redeem_unique_code, _get_previous_request, hrow, hap, hreq, herr]
  · simp [redeem_unique_code, _get_previous_request, hrow, hap, hreq, herr,
      hresp, RespData.reasonField, RespData.codeField]

/-- C2: a redeem call whose `request_id` already has an audit entry with the
same identity triple and the same raw request payload is a pure replay: a
stored `error=false` entry makes the call return the stored `response_data`
verbatim, and a stored `error=true` entry makes it re-raise
`CannotRedeem` with the recorded reason and code; in both cases the state is
returned unchanged (no unique-codes row is mutated and no audit row is
appended), so the code's `used` flag transitions at most once across
retries. -/
theorem C2_idempotent_replay (st : PoolState) (ap : AuditParams)
    (candidate_code : String) (now : Nat) (row : AuditRow)
    (hrow : st.audit.filter (fun r => r.request_id == ap.request_id) = [row])
    (htx : row.transaction_id = ap.transaction_id)
    (hus : row.user_id = ap.user_id)
    (hreq : row.request_data = ⟨candidate_code⟩) :
    (row.error = false →
      redeem_unique_code st candidate_code ap now = (.ok row.response_data, st)) ∧
    (∀ reason code, row.error = true → row.response_data = .err reason code →
      redeem_unique_code st candidate_code ap now =
        (.error (.cannotRedeem reason code), st)) :=
  redeem_replay st ap candidate_code now row hrow htx hus hreq

/-- The identity triple used by the replay fixtures. -/
def fixtureAuditParams : AuditParams :=
  { request_id := "req-1", transaction_id := "tx-1", user_id := "user-1" }

/-- A recorded successful redemption of `"v0"` under `fixtureAuditParams`. -/
def fixtureSuccessRow : AuditRow :=
  { request_id := "req-1"
    transaction_id := "tx-1"
    user_id := "user-1"
    request_data := ⟨"v0"⟩
    response_data := .ok { id := 1, unique_code := "v0", flavour := "vanilla",
                           used := false, reason := none }
    error := false
    created_at := 3
    unique_code := "v0" }

/-- A pool whose audit log already holds `fixtureSuccessRow`. -/
def replayState : PoolState :=
  { unique_codes := [{ id := 1, unique_code := "v0", flavour := "vanilla",
                       used := true, created_at := 0, modified_at := 3,
                       reason := some "redeemed" }]
    audit := [fixtureSuccessRow]
    import_audit := []
    next_id := 2 }

/-- Witness for C2: replaying the recorded request returns the stored
response and leaves the state unchanged. -/
theorem C2_idempotent_replay_witness :
    redeem_unique_code replayState "v0" fixtureAuditParams 9 =
      (.ok fixtureSuccessRow.response_data, replayState) :=
  (C2_idempotent_replay replayState fixtureAuditParams "v0" 9 fixtureSuccessRow
    (by decide) rfl rfl rfl).1 rfl

/-- Mismatch helper: an audit row for the same `request_id` with a different
transaction id, user id or raw request payload makes the call fail
`AuditMismatch` with the state unchanged. -/
theorem redeem_mismatch (st : PoolState) (ap : AuditParams)
    (candidate_code : String) (now : Nat) (row : AuditRow)
    (hrow : st.audit.filter (fun r => r.request_id == ap.request_id) = [row])
    (hdiff : row.transaction_id ≠ ap.transaction_id ∨
             row.user_id ≠ ap.user_id ∨
             row.request_data ≠ (⟨candidate_code⟩ : ReqData)) :
    redeem_unique_code st candidate_code ap now = (.error .auditMismatch, st) := by
  have hcond : ap ≠ (⟨row.request_id, row.transaction_id, row.user_id⟩ : AuditParams)
      ∨ (⟨candidate_code⟩ : ReqData) ≠ row.request_data := by
    rcases hdiff with h | h | h
    · exact .inl (fun he => h (by rw [he]))
    · exact .inl (fun he => h (by rw [he]))
    · exact .inr (fun he => h he.symm)
  simp only [redeem_unique_code, _get_previous_request, hrow, if_pos hcond]

/-- C3: a redeem call whose `request_id` already has an audit entry but whose
transaction id, user id or raw request payload differs from the stored values
fails with `AuditMismatch` and returns the state unchanged: neither the code
store nor the audit log is modified. -/
theorem C3_mismatch_rejected (st : PoolState) (ap : AuditParams)
    (candidate_code : String) (now : Nat) (row : AuditRow)
    (hrow : st.audit.filter (fun r => r.request_id == ap.request_id) = [row])
    (hdiff : row.transaction_id ≠ ap.transaction_id ∨
             row.user_id ≠ ap.user_id ∨
             row.request_data ≠ (⟨candidate_code⟩ : ReqData)) :
    redeem_unique_code st candidate_code ap now = (.error .auditMismatch, st) :=
  redeem_mismatch st ap candidate_code now row hrow hdiff

/-- Witness for C3: replaying `fixtureAuditParams`'s request id with a
different user id is rejected with `AuditMismatch`, state unchanged. -/
theorem C3_mismatch_rejected_witness :
    redeem_unique_code replayState "v0"
        ⟨"req-1", "tx-1", "user-2"⟩ 9 =
      (.error .auditMismatch, replayState) :=
  C3_mismatch_rejected replayState ⟨"req-1", "tx-1", "user-2"⟩ "v0" 9
    fixtureSuccessRow (by decide) (.inr (.inl (by decide)))

/-- Fresh-path helper: with no prior audit row, the idempotency check passes
through. -/
theorem prev_request_fresh {st : PoolState} {ap : AuditParams} {rd : ReqData}
    (hfresh : st.audit.filter (fun r => r.request_id == ap.request_id) = []) :
    _get_previous_request st ap rd = .ok none := by
  simp [_get_previous_request, hfresh]

/-- Fresh-path helper, no matching row: the call fails `invalid` and appends
the error audit row. -/
theorem redeem_fresh_invalid (st : PoolState) (ap : AuditParams)
    (candidate_code : String) (now : Nat)
    (hfresh : st.audit.filter (fun r => r.request_id == ap.request_id) = [])
    (hfind : st.unique_codes.find?
      (fun r => r.unique_code == canonicalise_unique_code candidate_code) = none) :
    redeem_unique_code st candidate_code ap now =
      (.error (.cannotRedeem "invalid" (canonicalise_unique_code candidate_code)),
       _audit_request st ap ⟨candidate_code⟩
         (.err "invalid" (canonicalise_unique_code candidate_code))
         (canonicalise_unique_code candidate_code) true now) := by
  simp [redeem_unique_code, prev_request_fresh hfresh, _redeem_unique_code,
    _get_unique_code, hfind]

/-- Fresh-path helper, first matching row already used: the call fails
`used` and appends the error audit row. -/
theorem redeem_fresh_used (st : PoolState) (ap : AuditParams)
    (candidate_code : String) (now : Nat) (r0 : UniqueCodeRow)
    (hfresh : st.audit.filter (fun r => r.request_id == ap.request_id) = [])
    (hfind : st.unique_codes.find?
      (fun r => r.unique_code == canonicalise_unique_code candidate_code) = some r0)
    (hused : r0.used = true) :
    redeem_unique_code st candidate_code ap now =
      (.error (.cannotRedeem "used" (canonicalise_unique_code candidate_code)),
       _audit_request st ap ⟨candidate_code⟩
         (.err "used" (canonicalise_unique_code candidate_code))
         (canonicalise_unique_code candidate_code) true now) := by
  simp [redeem_unique_code, prev_request_fresh hfresh, _redeem_unique_code,
    _get_unique_code, hfind, _format_unique_code, hused]

/-- Fresh-path helper, first matching row available: the call returns the
pre-update snapshot, writes `used=True, reason="redeemed", modified_at=now`
on that row's id, and appends the success audit row. -/
theorem redeem_fresh_success (st : PoolState) (ap : AuditParams)
    (candidate_code : String) (now : Nat) (r0 : UniqueCodeRow)
    (hfresh : st.audit.filter (fun r => r.request_id == ap.request_id) = [])
    (hfind : st.unique_codes.find?
      (fun r => r.unique_code == canonicalise_unique_code candidate_code) = some r0)
    (hused : r0.used = false) :
    redeem_unique_code st candidate_code ap now =
      (.ok (.ok (_format_unique_code r0)),
       _audit_request (_update_unique_code st r0.id true "redeemed" now) ap
         ⟨candidate_code⟩ (.ok (_format_unique_code r0))
         (canonicalise_unique_code candidate_code) false now) := by
  simp [redeem_unique_code, prev_request_fresh hfresh, _redeem_unique_code,
    _get_unique_code, hfind, _format_unique_code, hused]

/-- C5: a first-time redeem call (no audit entry for its request id) on an
existing pool fails `CannotRedeem(reason="invalid", code=canonical)` when no
row matches the canonical code, fails `CannotRedeem(reason="used",
code=canonical)` when the first matching row is already used — in either
failure case appending an `error=true` audit row whose response payload is
the `{reason, code}` pair, with the code store untouched — and, when the
first matching row is available, marks that row used with reason
`"redeemed"`, appends an `error=false` audit row whose response payload is
the code's public fields, and returns the code. -/
theorem C5_first_time_redeem (st : PoolState) (ap : AuditParams)
    (candidate_code : String) (now : Nat)
    (hfresh : st.audit.filter (fun r => r.request_id == ap.request_id) = []) :
    (st.unique_codes.find?
        (fun r => r.unique_code == canonicalise_unique_code candidate_code) = none →
      redeem_unique_code st candidate_code ap now =
        (.error (.cannotRedeem "invalid" (canonicalise_unique_code candidate_code)),
         { st with audit := st.audit ++ [{
             request_id := ap.request_id
             transaction_id := ap.transaction_id
             user_id := ap.user_id
             request_data := ⟨candidate_code⟩
             response_data := .err "invalid" (canonicalise_unique_code candidate_code)
             error := true
             created_at := now
             unique_code := canonicalise_unique_code candidate_code }] })) ∧
    (∀ r0, st.unique_codes.find?
        (fun r => r.unique_code == canonicalise_unique_code candidate_code) = some r0 →
      r0.used = true →
      redeem_unique_code st candidate_code ap now =
        (.error (.cannotRedeem "used" (canonicalise_unique_code candidate_code)),
         { st with audit := st.audit ++ [{
             request_id := ap.request_id
             transaction_id := ap.transaction_id
             user_id := ap.user_id
             request_data := ⟨candidate_code⟩
             response_data := .err "used" (canonicalise_unique_code candidate_code)
             error := true
             created_at := now
             unique_code := canonicalise_unique_code candidate_code }] })) ∧
    (∀ r0, st.unique_codes.find?
        (fun r => r.unique_code == canonicalise_unique_code candidate_code) = some r0 →
      r0.used = false →
      redeem_unique_code st candidate_code ap now =
        (.ok (.ok (_format_unique_code r0)),
         { st with
           unique_codes := st.unique_codes.map (fun row =>
             if row.id == r0.id then
               { row with
                 used := true
                 reason := some "redeemed"
                 modified_at := now }
             else row)
           audit := st.audit ++ [{
             request_id := ap.request_id
             transaction_id := ap.transaction_id
             user_id := ap.user_id
             request_data := ⟨candidate_code⟩
             response_data := .ok (_format_unique_code r0)
             error := false
             created_at := now
             unique_code := canonicalise_unique_code candidate_code }] })) := by
  refine ⟨fun hfind => ?_, fun r0 hfind hused => ?_, fun r0 hfind hused => ?_⟩
  · simpa [_audit_request] using redeem_fresh_invalid st ap candidate_code now hfresh hfind
  · simpa [_audit_request] using redeem_fresh_used st ap candidate_code now r0 hfresh hfind hused
  · simpa [_audit_request, _update_unique_code] using
      redeem_fresh_success st ap candidate_code now r0 hfresh hfind hused

/-- Witness for C5: the success conjunct applied to the concrete one-row pool
`raceState` at code `"vanilla0"`. -/
theorem C5_first_time_redeem_witness :
    redeem_unique_code raceState "vanilla0" fixtureAuditParams 7 =
      (.ok (.ok (_format_unique_code raceRow)),
       { raceState with
         unique_codes := raceState.unique_codes.map (fun row =>
           if row.id == raceRow.id then
             { row with
               used := true
               reason := some "redeemed"
               modified_at := 7 }
           else row)
         audit := raceState.audit ++ [{
           request_id := fixtureAuditParams.request_id
           transaction_id := fixtureAuditParams.transaction_id
           user_id := fixtureAuditParams.user_id
           request_data := ⟨"vanilla0"⟩
           response_data := .ok (_format_unique_code raceRow)
           error := false
           created_at := 7
           unique_code := canonicalise_unique_code "vanilla0" }] }) :=
  (C5_first_time_redeem raceState fixtureAuditParams "vanilla0" 7 rfl).2.2
    raceRow (by decide) rfl

/-- A fresh redeem call appends exactly one audit row, and its
`request_data` column holds the raw candidate code. -/
theorem redeem_fresh_appends (st : PoolState) (ap : AuditParams)
    (candidate_code : String) (now : Nat)
    (hfresh : st.audit.filter (fun r => r.request_id == ap.request_id) = []) :
    ∃ resp err,
      (redeem_unique_code st candidate_code ap now).2.audit =
        st.audit ++ [{
          request_id := ap.request_id
          transaction_id := ap.transaction_id
          user_id := ap.user_id
          request_data := ⟨candidate_code⟩
          response_data := resp
          error := err
          created_at := now
          unique_code := canonicalise_unique_code candidate_code }] := by
  cases hfind : st.unique_codes.find?
      (fun r => r.unique_code == canonicalise_unique_code candidate_code) with
  | none =>
    refine ⟨.err "invalid" (canonicalise_unique_code candidate_code), true, ?_⟩
    rw [redeem_fresh_invalid st ap candidate_code now hfresh hfind]
    simp [_audit_request]
  | some r0 =>
    cases hused : r0.used with
    | true =>
      refine ⟨.err "used" (canonicalise_unique_code candidate_code), true, ?_⟩
      rw [redeem_fresh_used st ap candidate_code now r0 hfresh hfind hused]
      simp [_audit_request]
    | false =>
      refine ⟨.ok (_format_unique_code r0), false, ?_⟩
      rw [redeem_fresh_success st ap candidate_code now r0 hfresh hfind hused]
      simp [_audit_request, _update_unique_code]

/-- C4: the audit row recorded by a fresh redeem call stores the raw, not
canonicalised, candidate code as its request payload, and canonicalisation is
applied only after the idempotency check: a second call with the same
`request_id` whose raw code differs — even when both raw codes canonicalise
to the same string — is an `AuditMismatch`, not a replay, and leaves the
state unchanged. -/
theorem C4_raw_code_in_audit (st : PoolState) (ap : AuditParams)
    (c1 c2 : String) (now now2 : Nat)
    (hfresh : st.audit.filter (fun r => r.request_id == ap.request_id) = [])
    (hne : c1 ≠ c2)
    (hcanon : canonicalise_unique_code c1 = canonicalise_unique_code c2) :
    (∃ resp err,
      (redeem_unique_code st c1 ap now).2.audit =
        st.audit ++ [{
          request_id := ap.request_id
          transaction_id := ap.transaction_id
          user_id := ap.user_id
          request_data := ⟨c1⟩
          response_data := resp
          error := err
          created_at := now
          unique_code := canonicalise_unique_code c1 }]) ∧
    redeem_unique_code (redeem_unique_code st c1 ap now).2 c2 ap now2 =
      (.error .auditMismatch, (redeem_unique_code st c1 ap now).2) := by
  obtain ⟨resp, err, haud⟩ := redeem_fresh_appends st ap c1 now hfresh
  refine ⟨⟨resp, err, haud⟩, ?_⟩
  have hfilter : (redeem_unique_code st c1 ap now).2.audit.filter
      (fun r => r.request_id == ap.request_id) = [{
        request_id := ap.request_id
        transaction_id := ap.transaction_id
        user_id := ap.user_id
        request_data := ⟨c1⟩
        response_data := resp
        error := err
        created_at := now
        unique_code := canonicalise_unique_code c1 }] := by
    rw [haud, List.filter_append, hfresh]
    simp
  exact redeem_mismatch _ ap c2 now2 _ hfilter
    (.inr (.inr (by simpa [ReqData.mk.injEq] using hne)))

/-- Witness for C4: raw codes `"VaNiLla0"` and `"vanilla0"` differ but share
a canonical form; the second call with the same request id mismatches. -/
theorem C4_raw_code_in_audit_witness :
    (∃ resp err,
      (redeem_unique_code raceState "VaNiLla0" fixtureAuditParams 7).2.audit =
        raceState.audit ++ [{
          request_id := fixtureAuditParams.request_id
          transaction_id := fixtureAuditParams.transaction_id
          user_id := fixtureAuditParams.user_id
          request_data := ⟨"VaNiLla0"⟩
          response_data := resp
          error := err
          created_at := 7
          unique_code := canonicalise_unique_code "VaNiLla0" }]) ∧
    redeem_unique_code (redeem_unique_code raceState "VaNiLla0" fixtureAuditParams 7).2
        "vanilla0" fixtureAuditParams 9 =
      (.error .auditMismatch,
       (redeem_unique_code raceState "VaNiLla0" fixtureAuditParams 7).2) :=
  C4_raw_code_in_audit raceState fixtureAuditParams "VaNiLla0" "vanilla0" 7 9
    rfl (by decide) (by decide)

/-- C10: the value a successful first-time redeem returns — and stores as
`response_data`, hence also returns on replay — is the row snapshot taken
before the update: a `FormattedCode` (exactly the columns other than
`created_at`/`modified_at`, which `_format_unique_code` omits) whose `used`
field is `false` and whose `reason` field is the pre-update value, even
though after the call the row itself holds `used=true`,
`reason="redeemed"`. -/
theorem C10_pre_update_snapshot (st : PoolState) (ap : AuditParams)
    (candidate_code : String) (now now2 : Nat) (r0 : UniqueCodeRow)
    (hfresh : st.audit.filter (fun r => r.request_id == ap.request_id) = [])
    (hfind : st.unique_codes.find?
      (fun r => r.unique_code == canonicalise_unique_code candidate_code) = some r0)
    (hused : r0.used = false) :
    (redeem_unique_code st candidate_code ap now).1 =
      .ok (.ok (_format_unique_code r0)) ∧
    _format_unique_code r0 =
      { id := r0.id, unique_code := r0.unique_code, flavour := r0.flavour,
        used := false, reason := r0.reason } ∧
    (∃ r1 ∈ (redeem_unique_code st candidate_code ap now).2.unique_codes,
      r1.id = r0.id ∧ r1.used = true ∧ r1.reason = some "redeemed") ∧
    redeem_unique_code (redeem_unique_code st candidate_code ap now).2
        candidate_code ap now2 =
      (.ok (.ok (_format_unique_code r0)),
       (redeem_unique_code st candidate_code ap now).2) := by
  have hred := redeem_fresh_success st ap candidate_code now r0 hfresh hfind hused
  have hsnap : _format_unique_code r0 =
      { id := r0.id, unique_code := r0.unique_code, flavour := r0.flavour,
        used := false, reason := r0.reason } := by
    simp [_format_unique_code, hused]
  refine ⟨by rw [hred], hsnap, ?_, ?_⟩
  · refine ⟨{ r0 with used := true, reason := some "redeemed", modified_at := now },
      ?_, rfl, rfl, rfl⟩
    rw [hred]
    simp only [_audit_request, _update_unique_code]
    refine List.mem_map.mpr ⟨r0, List.mem_of_find?_eq_some hfind, ?_⟩
    simp
  · have haud : (redeem_unique_code st candidate_code ap now).2.audit =
        st.audit ++ [{
          request_id := ap.request_id
          transaction_id := ap.transaction_id
          user_id := ap.user_id
          request_data := ⟨candidate_code⟩
          response_data := .ok (_format_unique_code r0)
          error := false
          created_at := now
          unique_code := canonicalise_unique_code candidate_code }] := by
      rw [hred]
      simp [_audit_request, _update_unique_code]
    have hfilter : (redeem_unique_code st candidate_code ap now).2.audit.filter
        (fun r => r.request_id == ap.request_id) = [{
          request_id := ap.request_id
          transaction_id := ap.transaction_id
          user_id := ap.user_id
          request_data := ⟨candidate_code⟩
          response_data := .ok (_format_unique_code r0)
          error := false
          created_at := now
          unique_code := canonicalise_unique_code candidate_code }] := by
      rw [haud, List.filter_append, hfresh]
      simp
    exact (redeem_replay _ ap candidate_code now2 _ hfilter rfl rfl rfl).1 rfl

/-- Witness for C10: the concrete one-row pool; the snapshot returned (and
replayed) shows `used=false`, `reason=none`, while the stored row is
`used=true, reason="redeemed"`. -/
theorem C10_pre_update_snapshot_witness :
    (redeem_unique_code raceState "vanilla0" fixtureAuditParams 7).1 =
      .ok (.ok (_format_unique_code raceRow)) ∧
    _format_unique_code raceRow =
      { id := raceRow.id, unique_code := raceRow.unique_code,
        flavour := raceRow.flavour, used := false, reason := raceRow.reason } ∧
    (∃ r1 ∈ (redeem_unique_code raceState "vanilla0" fixtureAuditParams 7).2.unique_codes,
      r1.id = raceRow.id ∧ r1.used = true ∧ r1.reason = some "redeemed") ∧
    redeem_unique_code (redeem_unique_code raceState "vanilla0" fixtureAuditParams 7).2
        "vanilla0" fixtureAuditParams 9 =
      (.ok (.ok (_format_unique_code raceRow)),
       (redeem_unique_code raceState "vanilla0" fixtureAuditParams 7).2) :=
  C10_pre_update_snapshot raceState fixtureAuditParams "vanilla0" 7 9 raceRow
    rfl (by decide) rfl

/-- C6: an import call whose `request_id` already has an import-audit entry
is a no-op success when the stored fingerprint matches and an `AuditMismatch`
failure when it differs, in both cases leaving the store unchanged; a fresh
`request_id` records the import-audit entry and bulk-inserts all the code
rows in one atomic state change, so importing the same
`(request_id, fingerprint, rows)` twice inserts exactly one copy of the
rows. -/
theorem C6_import_dedup (st : PoolState) (request_id content_md5 : String)
    (unique_code_dicts : List ImportDict) (now now2 : Nat) :
    (∀ row, st.import_audit.filter (fun r => r.request_id == request_id) = [row] →
      row.content_md5 = content_md5 →
      importUniqueCodes st request_id content_md5 unique_code_dicts now =
        (.ok (), st)) ∧
    (∀ row, st.import_audit.filter (fun r => r.request_id == request_id) = [row] →
      row.content_md5 ≠ content_md5 →
      importUniqueCodes st request_id content_md5 unique_code_dicts now =
        (.error .auditMismatch, st)) ∧
    (st.import_audit.filter (fun r => r.request_id == request_id) = [] →
      importUniqueCodes st request_id content_md5 unique_code_dicts now =
        (.ok (), { st with
          import_audit := st.import_audit ++ [{
            request_id := request_id
            content_md5 := content_md5
            created_at := now }]
          unique_codes := st.unique_codes ++
            importRows st.next_id unique_code_dicts now
          next_id := st.next_id + unique_code_dicts.length }) ∧
      (importUniqueCodes
          (importUniqueCodes st request_id content_md5 unique_code_dicts now).2
          request_id content_md5 unique_code_dicts now2) =
        (.ok (),
         (importUniqueCodes st request_id content_md5 unique_code_dicts now).2)) := by
  refine ⟨fun row hrow hmd5 => ?_, fun row hrow hmd5 => ?_, fun hfresh => ?_⟩
  · simp [importUniqueCodes, hrow, hmd5]
  · simp [importUniqueCodes, hrow, hmd5]
  · have hfirst : importUniqueCodes st request_id content_md5 unique_code_dicts now =
        (.ok (), { st with
          import_audit := st.import_audit ++ [{
            request_id := request_id
            content_md5 := content_md5
            created_at := now }]
          unique_codes := st.unique_codes ++
            importRows st.next_id unique_code_dicts now
          next_id := st.next_id + unique_code_dicts.length }) := by
      simp [importUniqueCodes, hfresh]
    refine ⟨hfirst, ?_⟩
    rw [hfirst]
    simp [importUniqueCodes, List.filter_append, hfresh]

/-- A pool with empty tables (as after `create_tables`). -/
def emptyPool : PoolState :=
  { unique_codes := [], audit := [], import_audit := [], next_id := 1 }

/-- Witness for C6: a fresh two-row import into an empty pool inserts the
rows once; repeating it is a no-op. -/
theorem C6_import_dedup_witness :
    importUniqueCodes emptyPool "imp-1" "md5-1"
        [⟨"vanilla", "v0"⟩, ⟨"vanilla", "v1"⟩] 4 =
      (.ok (), { emptyPool with
        import_audit := emptyPool.import_audit ++ [{
          request_id := "imp-1"
          content_md5 := "md5-1"
          created_at := 4 }]
        unique_codes := emptyPool.unique_codes ++
          importRows emptyPool.next_id [⟨"vanilla", "v0"⟩, ⟨"vanilla", "v1"⟩] 4
        next_id := emptyPool.next_id + 2 }) ∧
    (importUniqueCodes
        (importUniqueCodes emptyPool "imp-1" "md5-1"
          [⟨"vanilla", "v0"⟩, ⟨"vanilla", "v1"⟩] 4).2
        "imp-1" "md5-1" [⟨"vanilla", "v0"⟩, ⟨"vanilla", "v1"⟩] 9) =
      (.ok (),
       (importUniqueCodes emptyPool "imp-1" "md5-1"
         [⟨"vanilla", "v0"⟩, ⟨"vanilla", "v1"⟩] 4).2) :=
  (C6_import_dedup emptyPool "imp-1" "md5-1"
    [⟨"vanilla", "v0"⟩, ⟨"vanilla", "v1"⟩] 4 9).2.2 rfl

/-- `_get_previous_request` only raises `AuditMismatch` or `CannotRedeem`,
never `NoUniqueCodePool`. -/
theorem prev_request_not_noPool (st : PoolState) (ap : AuditParams)
    (rd : ReqData) : _get_previous_request st ap rd ≠ .error .noPool := by
  unfold _get_previous_request
  cases st.audit.filter (fun row => row.request_id == ap.request_id) with
  | nil => simp
  | cons row t =>
    dsimp only
    split_ifs <;> simp

/-- `_redeem_unique_code` only raises `CannotRedeem`, never
`NoUniqueCodePool`. -/
theorem _redeem_not_noPool (st : PoolState) (c reason : String) (now : Nat) :
    _redeem_unique_code st c reason now ≠ .error .noPool := by
  unfold _redeem_unique_code
  cases _get_unique_code st c with
  | none => simp
  | some uc =>
    dsimp only
    split_ifs <;> simp

/-- `redeem_unique_code` never raises `NoUniqueCodePool` once the pool's
tables exist. -/
theorem redeem_not_noPool (st : PoolState) (c : String) (ap : AuditParams)
    (now : Nat) : (redeem_unique_code st c ap now).1 ≠ .error .noPool := by
  unfold redeem_unique_code
  dsimp only
  cases hprev : _get_previous_request st ap ⟨c⟩ with
  | error e =>
    have h := prev_request_not_noPool st ap ⟨c⟩
    rw [hprev] at h
    cases e <;> simp_all
  | ok prev =>
    cases prev with
    | some d => simp
    | none =>
      cases hred : _redeem_unique_code st (canonicalise_unique_code c) "redeemed" now with
      | error e =>
        have h := _redeem_not_noPool st (canonicalise_unique_code c) "redeemed" now
        rw [hred] at h
        cases e <;> simp_all
      | ok p => simp

/-- The import operation never raises `NoUniqueCodePool` once the pool's
tables exist. -/
theorem import_not_noPool (st : PoolState) (request_id content_md5 : String)
    (dicts : List ImportDict) (now : Nat) :
    (importUniqueCodes st request_id content_md5 dicts now).1 ≠ .error .noPool := by
  unfold importUniqueCodes
  cases st.import_audit.filter (fun row => row.request_id == request_id) with
  | nil => simp
  | cons row t =>
    dsimp only
    split_ifs <;> simp

/-- `applyOp` never produces `NoUniqueCodePool`: every error an existing
pool's operation raises is `AuditMismatch` or `CannotRedeem`. -/
theorem applyOp_not_noPool (op : Op) (st : PoolState) :
    (applyOp op st).1 ≠ .error .noPool := by
  cases op with
  | redeemOp c ap now =>
    have h := redeem_not_noPool st c ap now
    dsimp only [applyOp]
    cases hr : redeem_unique_code st c ap now with
    | mk r s =>
      rw [hr] at h
      cases r with
      | error e => cases e <;> simp_all [Except.map]
      | ok v => simp [Except.map]
  | importOp request_id content_md5 dicts now =>
    have h := import_not_noPool st request_id content_md5 dicts now
    dsimp only [applyOp]
    cases hr : importUniqueCodes st request_id content_md5 dicts now with
    | mk r s =>
      rw [hr] at h
      cases r with
      | error e => cases e <;> simp_all [Except.map]
      | ok v => simp [Except.map]
  | countsOp => simp [applyOp]
  | queryRequestIdOp v => simp [applyOp]
  | queryTransactionIdOp v => simp [applyOp]
  | queryUserIdOp v => simp [applyOp]
  | queryUniqueCodeOp v => simp [applyOp]

/-- C7: a pool-scoped operation (redeem, import, the audit queries, counts)
raises the distinct `NoUniqueCodePool` condition exactly when the pool's
storage namespace is absent: every operation on a missing pool fails with
`NoUniqueCodePool` (not a generic storage error), and no operation on an
existing pool ever produces it. -/
theorem C7_pool_not_found (op : Op) (pool : Option PoolState) :
    (applyStoreOp op pool).1 = .error .noPool ↔ pool = none := by
  cases pool with
  | none => simp [applyStoreOp]
  | some st =>
    dsimp only [applyStoreOp]
    cases happ : applyOp op st with
    | mk r s =>
      have h := applyOp_not_noPool op st
      rw [happ] at h
      simp_all

/-- Shape of a successful `_redeem_unique_code`: the state it returns is the
id-conditioned update of the input state. -/
theorem _redeem_ok_shape {st : PoolState} {c reason : String} {now : Nat}
    {uc : FormattedCode} {st1 : PoolState}
    (h : _redeem_unique_code st c reason now = .ok (uc, st1)) :
    st1 = _update_unique_code st uc.id true reason now := by
  unfold _redeem_unique_code at h
  cases hg : _get_unique_code st c with
  | none => rw [hg] at h; cases h
  | some u =>
    rw [hg] at h
    dsimp only at h
    split_ifs at h
    obtain ⟨h1, h2⟩ := Prod.mk.injEq .. ▸ (Except.ok.injEq .. ▸ h)
    rw [← h1, ← h2]

/-- The `unique_codes` table after any redeem call: unchanged, or the
id-conditioned `used=true, reason="redeemed"` update of one row. -/
theorem redeem_codes_shape (st : PoolState) (c : String) (ap : AuditParams)
    (now : Nat) :
    (redeem_unique_code st c ap now).2.unique_codes = st.unique_codes ∨
    ∃ i, (redeem_unique_code st c ap now).2.unique_codes =
      st.unique_codes.map (fun row =>
        if row.id == i then
          { row with used := true, reason := some "redeemed", modified_at := now }
        else row) := by
  unfold redeem_unique_code
  dsimp only
  cases hprev : _get_previous_request st ap ⟨c⟩ with
  | error e => exact .inl rfl
  | ok prev =>
    cases prev with
    | some d => exact .inl rfl
    | none =>
      cases hred : _redeem_unique_code st (canonicalise_unique_code c) "redeemed" now with
      | error e =>
        cases e <;> exact .inl (by simp [_audit_request])
      | ok p =>
        obtain ⟨uc, st1⟩ := p
        refine .inr ⟨uc.id, ?_⟩
        have hshape := _redeem_ok_shape hred
        simp [_audit_request, hshape, _update_unique_code]

/-- The pool state `applyOp` threads through for a redeem operation. -/
theorem applyOp_redeem_state (c : String) (ap : AuditParams) (now : Nat)
    (st : PoolState) :
    (applyOp (.redeemOp c ap now) st).2 = (redeem_unique_code st c ap now).2 := by
  dsimp only [applyOp]

/-- The pool state `applyOp` threads through for an import operation. -/
theorem applyOp_import_state (request_id content_md5 : String)
    (dicts : List ImportDict) (now : Nat) (st : PoolState) :
    (applyOp (.importOp request_id content_md5 dicts now) st).2 =
      (importUniqueCodes st request_id content_md5 dicts now).2 := by
  dsimp only [applyOp]

/-- The `unique_codes` table after any import call: unchanged, or the old
table with the freshly built rows appended. -/
theorem import_codes_shape (st : PoolState) (request_id content_md5 : String)
    (dicts : List ImportDict) (now : Nat) :
    (importUniqueCodes st request_id content_md5 dicts now).2.unique_codes =
      st.unique_codes ∨
    (importUniqueCodes st request_id content_md5 dicts now).2.unique_codes =
      st.unique_codes ++ importRows st.next_id dicts now := by
  unfold importUniqueCodes
  cases st.import_audit.filter (fun row => row.request_id == request_id) with
  | nil => exact .inr rfl
  | cons row t =>
    dsimp only
    split_ifs <;> exact .inl rfl

/-- Every row produced by the import loop starts `used=false`,
`reason=NULL`. -/
theorem importRows_unused {first_id : Nat} {dicts : List ImportDict}
    {now : Nat} {r : UniqueCodeRow} (h : r ∈ importRows first_id dicts now) :
    r.used = false ∧ r.reason = none := by
  obtain ⟨p, _, hp⟩ := List.mem_map.mp h
  rw [← hp]
  exact ⟨rfl, rfl⟩

/-- C8: across every exposed pool-scoped operation (import, redeem, audit
queries, counts) applied to any state, a `unique_codes` row whose `used`
flag is `true` keeps a row with the same id, same code and `used=true`
(Redeemed is terminal: `used` never reverts to `false`), and every row that
an import call adds starts with `used=false` (and `reason=NULL`): the per-code
state machine is Unknown → Available → Redeemed. -/
theorem C8_redeemed_terminal :
    (∀ (op : Op) (st : PoolState), ∀ r ∈ st.unique_codes, r.used = true →
      ∃ r1 ∈ ((applyOp op st).2).unique_codes,
        r1.id = r.id ∧ r1.unique_code = r.unique_code ∧ r1.used = true) ∧
    (∀ (st : PoolState) (request_id content_md5 : String)
        (dicts : List ImportDict) (now : Nat),
      ∀ r1 ∈ ((importUniqueCodes st request_id content_md5 dicts now).2).unique_codes,
        r1 ∈ st.unique_codes ∨ (r1.used = false ∧ r1.reason = none)) := by
  constructor
  · intro op st r hr hused
    cases op with
    | redeemOp c ap now =>
      rw [applyOp_redeem_state]
      rcases redeem_codes_shape st c ap now with h | ⟨i, h⟩
      · exact ⟨r, by rw [h]; exact hr, rfl, rfl, hused⟩
      · refine ⟨if r.id == i then
            { r with used := true, reason := some "redeemed", modified_at := now }
          else r, ?_, ?_, ?_, ?_⟩
        · rw [h]
          exact List.mem_map.mpr ⟨r, hr, rfl⟩
        · split_ifs <;> rfl
        · split_ifs <;> rfl
        · split_ifs <;> simp [hused]
    | importOp request_id content_md5 dicts now =>
      rw [applyOp_import_state]
      rcases import_codes_shape st request_id content_md5 dicts now with h | h
      · exact ⟨r, by rw [h]; exact hr, rfl, rfl, hused⟩
      · exact ⟨r, by rw [h]; exact List.mem_append_left _ hr, rfl, rfl, hused⟩
    | countsOp => exact ⟨r, hr, rfl, rfl, hused⟩
    | queryRequestIdOp v => exact ⟨r, hr, rfl, rfl, hused⟩
    | queryTransactionIdOp v => exact ⟨r, hr, rfl, rfl, hused⟩
    | queryUserIdOp v => exact ⟨r, hr, rfl, rfl, hused⟩
    | queryUniqueCodeOp v => exact ⟨r, hr, rfl, rfl, hused⟩
  · intro st request_id content_md5 dicts now r1 hr1
    rcases import_codes_shape st request_id content_md5 dicts now with h | h
    · exact .inl (h ▸ hr1)
    · rcases List.mem_append.mp (h ▸ hr1) with hm | hm
      · exact .inl hm
      · exact .inr (importRows_unused hm)

/-- Witness for C8: the redeemed row of `replayState` keeps `used=true`
through a second redeem attempt, and the two rows imported into `emptyPool`
start unused. -/
theorem C8_redeemed_terminal_witness :
    (∃ r1 ∈ ((applyOp (.redeemOp "v0" ⟨"req-9", "tx-9", "user-9"⟩ 11)
        replayState).2).unique_codes,
      r1.id = 1 ∧ r1.unique_code = "v0" ∧ r1.used = true) ∧
    ∀ r1 ∈ ((importUniqueCodes emptyPool "imp-1" "md5-1"
        [⟨"vanilla", "v0"⟩] 4).2).unique_codes,
      r1 ∈ emptyPool.unique_codes ∨ (r1.used = false ∧ r1.reason = none) :=
  ⟨C8_redeemed_terminal.1 (.redeemOp "v0" ⟨"req-9", "tx-9", "user-9"⟩ 11)
      replayState
      { id := 1, unique_code := "v0", flavour := "vanilla", used := true,
        created_at := 0, modified_at := 3, reason := some "redeemed" }
      (by decide) rfl,
   C8_redeemed_terminal.2 emptyPool "imp-1" "md5-1" [⟨"vanilla", "v0"⟩] 4⟩

end UniqueCodeService
